import Mathlib

/-!
Verification of the varlink/python core against its specification.

The Lean definitions below are a shallow embedding of the repository's
source files:

* `varlink/error.py`    — exception taxonomy (`VarlinkError.new` and the
  four standard subclasses),
* `varlink/scanner.py`  — IDL scanner (interface-name token), type model,
  and the value validator `Interface.filter_params`,
* `varlink/client.py`   — client call state machine
  (`ClientInterfaceHandler._call`, `_call_more`,
  `_next_varlink_message`) and the NUL frame reader
  (`SimpleClientInterfaceHandler._next_message`),
* `varlink/server.py`   — service dispatcher (`Service._handle`,
  `Service.handle`).

Python dictionaries are modelled as association lists with unique keys in
insertion order; JSON values as the inductive `Value`; raised exceptions as
explicit error results.
-/

namespace Varlink

/-- JSON-like values as decoded by the Python json module, plus Python set
objects as produced by the parameter filter (a set is encoded on the wire
by VarlinkEncoder as an object whose values are empty objects). -/
inductive Value : Type where
  | null : Value
  | bool (b : Bool) : Value
  | int (n : Int) : Value
  | float (q : Rat) : Value
  | str (s : String) : Value
  | arr (elems : List Value) : Value
  | obj (fields : List (String × Value)) : Value
  | setv (elems : List String) : Value

/-- Python truthiness of a JSON value (used by `if args:`, `out or ...`,
`while more:` in the sources). -/
def Value.truthy : Value → Bool
  | .null => false
  | .bool b => b
  | .int n => n != 0
  | .float q => q != 0
  | .str s => s != ""
  | .arr xs => !xs.isEmpty
  | .obj kvs => !kvs.isEmpty
  | .setv xs => !xs.isEmpty

/-- Python `d.get(key)` on a dictionary modelled as an association list. -/
def dictGet (kvs : List (String × Value)) (k : String) : Option Value :=
  kvs.lookup k

/-- Python `message.get(key)` where `message` is a decoded JSON value;
the sources only ever call this on objects. -/
def Value.get : Value → String → Option Value
  | .obj kvs, k => dictGet kvs k
  | _, _ => none

/-- Python `key in message` for a decoded JSON object. -/
def Value.hasKey (v : Value) (k : String) : Bool :=
  (v.get k).isSome

/-- Python `d[key] = val` on a dictionary modelled as an association list:
replaces in place when the key exists, appends otherwise. -/
def dictSet : List (String × Value) → String → Value → List (String × Value)
  | [], k, v => [(k, v)]
  | (k0, v0) :: rest, k, v =>
      if k0 = k then (k0, v) :: rest else (k0, v0) :: dictSet rest k v

/-- Python `del d[key]` on a dictionary modelled as an association list. -/
def dictDel : List (String × Value) → String → List (String × Value)
  | [], _ => []
  | (k0, v0) :: rest, k =>
      if k0 = k then rest else (k0, v0) :: dictDel rest k

/-! ## error.py -/

/-- The varlink exception classes of `error.py`: the four standardized
subclasses and the generic `VarlinkError` base class.  Each constructor
carries exactly the data its `__init__` stores (for the subclasses the
single extracted parameter, for the base class the normalized message
dictionary). -/
inductive VarlinkExc : Type where
  | interfaceNotFound (interface : Value)
  | methodNotFound (method : Value)
  | methodNotImplemented (method : Value)
  | invalidParameter (parameter : Value)
  | generic (message : Value)

/-- Embedding of `VarlinkError.as_dict` composed with each subclass
`__init__`: the wire dictionary held in `Exception.args[0]`. -/
def VarlinkExc.asDict : VarlinkExc → Value
  | .interfaceNotFound v =>
      .obj [("error", .str "org.varlink.service.InterfaceNotFound"),
            ("parameters", .obj [("interface", v)])]
  | .methodNotFound v =>
      .obj [("error", .str "org.varlink.service.MethodNotFound"),
            ("parameters", .obj [("method", v)])]
  | .methodNotImplemented v =>
      .obj [("error", .str "org.varlink.service.MethodNotImplemented"),
            ("parameters", .obj [("method", v)])]
  | .invalidParameter v =>
      .obj [("error", .str "org.varlink.service.InvalidParameter"),
            ("parameters", .obj [("parameter", v)])]
  | .generic m => m

/-- Outcome of `VarlinkError.new`: the constructed varlink exception, or a
native Python exception escaping from the classifying code (`KeyError`
when `InterfaceNotFound.new` sees no parameters or when the message has no
`error` key, `AttributeError` when a subclass `.new` calls `.get` on
`None`, `TypeError` on a non-dictionary message). -/
inductive NewResult : Type where
  | exc (e : VarlinkExc)
  | keyError (k : String)
  | attributeError
  | typeError

/-- Embedding of `VarlinkError.message_parameters(message, namespaced=False)`
(error.py lines 48-56): `message.get("parameters")`, `None` when absent. -/
def messageParameters (message : Value) : Value :=
  (message.get "parameters").getD .null

/-- Embedding of `InterfaceNotFound.new` (error.py lines 69-75): missing
parameters raise `KeyError("parameters")`, otherwise the `interface` entry
is extracted. -/
def interfaceNotFoundNew (message : Value) : NewResult :=
  match messageParameters message with
  | .null => .keyError "parameters"
  | .obj kvs => .exc (.interfaceNotFound ((dictGet kvs "interface").getD .null))
  | _ => .attributeError

/-- Embedding of `MethodNotFound.new` (error.py lines 90-93):
`parameters.get("method", None)` with no `None` guard. -/
def methodNotFoundNew (message : Value) : NewResult :=
  match messageParameters message with
  | .obj kvs => .exc (.methodNotFound ((dictGet kvs "method").getD .null))
  | _ => .attributeError

/-- Embedding of `MethodNotImplemented.new` (error.py lines 108-111). -/
def methodNotImplementedNew (message : Value) : NewResult :=
  match messageParameters message with
  | .obj kvs => .exc (.methodNotImplemented ((dictGet kvs "method").getD .null))
  | _ => .attributeError

/-- Embedding of `InvalidParameter.new` (error.py lines 126-129). -/
def invalidParameterNew (message : Value) : NewResult :=
  match messageParameters message with
  | .obj kvs => .exc (.invalidParameter ((dictGet kvs "parameter").getD .null))
  | _ => .attributeError

/-- Embedding of `VarlinkError.new` (error.py lines 21-36).  The source
dispatches on `message["error"]` with an if/elif chain; note that the
source chain tests `"org.varlink.service.MethodNotImplemented"` twice
(lines 29 and 32) and never tests `"org.varlink.service.MethodNotFound"`,
so that error name falls through to the generic `VarlinkError` branch. -/
def varlinkErrorNew (message : Value) : NewResult :=
  match message with
  | .obj kvs =>
    match dictGet kvs "error" with
    | none => .keyError "error"
    | some (.str e) =>
      if e = "org.varlink.service.InterfaceNotFound" then
        interfaceNotFoundNew message
      else if e = "org.varlink.service.InvalidParameter" then
        invalidParameterNew message
      else if e = "org.varlink.service.MethodNotImplemented" then
        methodNotImplementedNew message
      else if e = "org.varlink.service.MethodNotImplemented" then
        methodNotImplementedNew message
      else
        .exc (.generic message)
    | some _ => .exc (.generic message)
  | _ => .typeError

/-! ## client.py — reply classification -/

/-- Truthiness of the `continues` entry of a reply message:
`('continues' in message) and message['continues']`, as used by the client
state machine where the result feeds a boolean context. -/
def continuesOf (message : Value) : Bool :=
  match message.get "continues" with
  | some v => v.truthy
  | none => false

/-- Embedding of `ClientInterfaceHandler._next_varlink_message`
(client.py lines 298-310): default the `parameters` entry, then either
raise the classified varlink exception when a non-null `error` entry is
present, or return the parameters together with the `continues` flag. -/
def nextVarlinkMessage (message : Value) : Except NewResult (Value × Bool) :=
  let message := if message.hasKey "parameters" then message
    else (match message with
      | .obj kvs => .obj (dictSet kvs "parameters" (.obj []))
      | m => m)
  match message.get "error" with
  | some .null => .ok ((message.get "parameters").getD .null, continuesOf message)
  | some _ => .error (varlinkErrorNew message)
  | none => .ok ((message.get "parameters").getD .null, continuesOf message)

/-! ## scanner.py — type model

The scanner's type markers: `_Maybe`, `_Dict`, `_CustomType`, `_Object`,
`_Enum`, `_Array`, the Python `set()` marker for `[string]()`, the Python
instances `str() / float() / bool() / int()` for the primitives, and
`_Struct`.  Interface members are `_Alias`, `_Method`, `_Error`. -/

inductive VType : Type where
  | bool : VType
  | int : VType
  | float : VType
  | str : VType
  | object : VType
  | set : VType
  | array (elem : VType) : VType
  | dict (elem : VType) : VType
  | maybe (elem : VType) : VType
  | enum (tags : List String) : VType
  | struct (fields : List (String × VType)) : VType
  | custom (name : String) : VType

/-- Interface members (`_Alias`, `_Method`, `_Error` of scanner.py).
Method in/out types are whatever `read_struct` produced. -/
inductive Member : Type where
  | alias (t : VType) : Member
  | method (inT outT : VType) : Member
  | err (t : VType) : Member

/-- What `filter_params` may receive as its `varlink_type` argument: a type
node, a member (the `_CustomType` branch passes `self.members.get(name)`
which is an `_Alias`, `_Method` or `_Error`), or Python `None` when the
member lookup missed. -/
inductive FType : Type where
  | ty (t : VType) : FType
  | mem (m : Member) : FType
  | missing : FType

/-- Exceptions raised by the validator and the dispatcher: varlink errors,
and native Python exceptions (TypeError, RecursionError for exhausted
call depth, and arbitrary other exceptions raised by handlers). -/
inductive PyExc : Type where
  | varlink (e : VarlinkExc) : PyExc
  | typeError : PyExc
  | recursionError : PyExc
  | other (name : String) : PyExc

/-- The `args` argument of `filter_params`: a decoded JSON value, or the
positional-argument tuple of a client-side call. -/
inductive PyArgs : Type where
  | val (v : Value) : PyArgs
  | tup (vs : List Value) : PyArgs

/-- Python iteration (`for x in args`) over a JSON value: lists yield their
elements, strings their characters, dictionaries their keys, sets their
elements; other values are not iterable. -/
def pyIter : Value → Option (List Value)
  | .arr xs => some xs
  | .str s => some (s.data.map (fun c => .str (String.mk [c])))
  | .obj kvs => some (kvs.map (fun kv => Value.str kv.1))
  | .setv xs => some (xs.map Value.str)
  | _ => none

/-- First-occurrence deduplication, modelling Python `set(...)` built from
a list of strings. -/
def dedupFirst (xs : List String) : List String :=
  xs.foldl (fun acc x => if x ∈ acc then acc else acc ++ [x]) []

/-- Python `set(args)` for the `[string]()` set type.  Only string
elements are modelled, which is what the IDL set type carries. -/
def pySetOf : Value → Except PyExc Value
  | .obj kvs => .ok (.setv (dedupFirst (kvs.map Prod.fst)))
  | .setv xs => .ok (.setv xs)
  | .arr xs =>
      match xs.mapM (fun v => match v with | .str s => some s | _ => none) with
      | some ss => .ok (.setv (dedupFirst ss))
      | none => .error .typeError
  | .str s => .ok (.setv (dedupFirst (s.data.map (fun c => String.mk [c]))))
  | _ => .error .typeError

/-- Python `float(x)` on a JSON number or bool. -/
def pyFloat : Value → Option Rat
  | .float q => some q
  | .int n => some (n : Rat)
  | .bool b => some (if b then 1 else 0)
  | _ => none

/-- Python `int(q)`: truncation toward zero. -/
def pyTruncToInt (q : Rat) : Int :=
  if 0 ≤ q then q.floor else q.ceil

/-- Elementwise effectful map, used for the `_Array` list comprehension
and the `_Dict` items loop of `filter_params`. -/
def mapMExc (g : α → Except PyExc β) : List α → Except PyExc (List β)
  | [] => .ok []
  | x :: xs => do
      let y ← g x
      let ys ← mapMExc g xs
      .ok (y :: ys)

/-- The field loop of the `_Struct` branch of `filter_params`
(scanner.py lines 364-425).  `flt` is the one-level-deeper recursive
filter call, `argsT` the surviving positional tuple (`args` in the
source, `none` once the source sets it to `None`), `vstruct` is
`varlink_struct`, and `out` the accumulated output dictionary.  A field
whose filtered value is `None` is omitted from the output. -/
def filterFieldsGo (flt : String → VType → Value → Except PyExc Value)
    (parentName : String) :
    List (String × VType) → Option (List Value) → Option Value →
    List (String × Value) → List (String × Value) →
    Except PyExc (List (String × Value))
  | [], _, _, _, out => .ok out
  | (name, ft) :: fields, argsT, vstruct, kwargs, out =>
    match argsT with
    | some (v :: restT) =>
        -- tuple still non-empty: pop the head; `args` becomes None once at
        -- most one element was left
        (match flt (parentName ++ "." ++ name) ft v with
         | .error e => .error e
         | .ok ret =>
            let argsT1 : Option (List Value) :=
              if restT.isEmpty then none else some restT
            let out1 := match ret with
              | .null => out
              | _ => dictSet out name ret
            filterFieldsGo flt parentName fields argsT1 vstruct kwargs out1)
    | some [] =>
        -- tuple empty from the start: consult kwargs; a missing keyword
        -- falls through to the varlink_struct test, which is None here
        (match kwargs.lookup name with
         | some v =>
            (match flt (parentName ++ "." ++ name) ft v with
             | .error e => .error e
             | .ok ret =>
                let out1 := match ret with
                  | .null => out
                  | _ => dictSet out name ret
                filterFieldsGo flt parentName fields argsT vstruct kwargs out1)
         | none =>
            filterFieldsGo flt parentName fields argsT vstruct kwargs out)
    | none =>
        match vstruct with
        | some vs =>
            if vs.truthy then
              match vs with
              | .obj kvs =>
                  (match dictGet kvs name with
                   | none =>
                      filterFieldsGo flt parentName fields argsT vstruct kwargs out
                   | some v =>
                      match flt (parentName ++ "." ++ name) ft v with
                      | .error e => .error e
                      | .ok ret =>
                          let out1 := match ret with
                            | .null => out
                            | _ => dictSet out name ret
                          filterFieldsGo flt parentName fields argsT vstruct
                            kwargs out1)
              | _ =>
                  -- non-dict value: `hasattr(varlink_struct, name)` fails for
                  -- every JSON scalar, so the field is skipped
                  filterFieldsGo flt parentName fields argsT vstruct kwargs out
            else
              filterFieldsGo flt parentName fields argsT vstruct kwargs out
        | none =>
            filterFieldsGo flt parentName fields argsT vstruct kwargs out

/-- Embedding of `Interface.filter_params` (scanner.py lines 290-425).
The `_namespaced` flag is not carried: the `SimpleNamespace` output of the
namespaced branch and the dictionary output of the plain branch are both
modelled as `Value.obj`, and the source builds the two identically.
`fuel` models the Python recursion limit (a `RecursionError` when
exhausted); every recursive source call decrements it. -/
def filterParams (members : List (String × Member)) :
    Nat → String → FType → PyArgs → List (String × Value) → Except PyExc Value
  | 0, _, _, _, _ => .error .recursionError
  | fuel + 1, parentName, t, margs, kwargs =>
    match t, margs with
    -- _Maybe: None maps to None, otherwise recurse on the element type
    | .ty (.maybe _), .val .null => .ok .null
    | .ty (.maybe elem), _ =>
        filterParams members fuel parentName (.ty elem) margs kwargs
    -- _Dict: None maps to an empty dict; a dict is filtered valuewise; any
    -- other value falls through the remaining isinstance tests to the final
    -- raise (the source builds an InvalidParameter there without raising it)
    | .ty (.dict _), .val .null => .ok (.obj [])
    | .ty (.dict elem), .val (.obj kvs) => do
        let kvs1 ← mapMExc (fun kv => do
          let v1 ← filterParams members fuel
            (parentName ++ "[" ++ kv.1 ++ "]") (.ty elem) (.val kv.2) []
          .ok (kv.1, v1)) kvs
        .ok (.obj kvs1)
    | .ty (.dict _), _ =>
        .error (.varlink (.invalidParameter (.str parentName)))
    -- _CustomType: look the name up among the members and recurse on
    -- whatever that lookup produced
    | .ty (.custom name), _ =>
        filterParams members fuel parentName
          (match members.lookup name with
           | some m => .mem m
           | none => .missing) margs kwargs
    -- _Alias: recurse on the aliased type
    | .mem (.alias aliased), _ =>
        filterParams members fuel parentName (.ty aliased) margs kwargs
    -- _Object: pass through unchanged (a tuple would later be JSON-encoded
    -- as an array)
    | .ty .object, .val v => .ok v
    | .ty .object, .tup vs => .ok (.arr vs)
    -- _Enum with a string value: returned unchanged.  Any other value
    -- falls through every remaining isinstance test to the final raise.
    | .ty (.enum _), .val (.str s) => .ok (.str s)
    | .ty (.enum _), _ =>
        .error (.varlink (.invalidParameter (.str parentName)))
    -- _Array: None maps to an empty list, otherwise each element of the
    -- iteration is filtered
    | .ty (.array _), .val .null => .ok (.arr [])
    | .ty (.array elem), .val v =>
        match pyIter v with
        | some xs => do
            let ys ← mapMExc (fun x => filterParams members fuel
              (parentName ++ "[]") (.ty elem) (.val x) []) xs
            .ok (.arr ys)
        | none => .error .typeError
    | .ty (.array elem), .tup vs => do
        let ys ← mapMExc (fun x => filterParams members fuel
          (parentName ++ "[]") (.ty elem) (.val x) []) vs
        .ok (.arr ys)
    -- set marker: return set(args)
    | .ty .set, .val v => pySetOf v
    | .ty .set, .tup vs => pySetOf (.arr vs)
    -- str(): strings pass, everything else reaches the final raise
    | .ty .str, .val (.str s) => .ok (.str s)
    | .ty .str, _ => .error (.varlink (.invalidParameter (.str parentName)))
    -- float(): floats and ints (bools included, being Python ints) coerce
    | .ty .float, .val v =>
        match pyFloat v with
        | some q => .ok (.float q)
        | none => .error (.varlink (.invalidParameter (.str parentName)))
    | .ty .float, .tup _ => .error (.varlink (.invalidParameter (.str parentName)))
    -- bool(): only bools pass
    | .ty .bool, .val (.bool b) => .ok (.bool b)
    | .ty .bool, _ => .error (.varlink (.invalidParameter (.str parentName)))
    -- int(): floats round via int(x + 0.5), ints (bools included) pass
    | .ty .int, .val (.int n) => .ok (.int n)
    | .ty .int, .val (.float q) => .ok (.int (pyTruncToInt (q + (1 : Rat) / 2)))
    | .ty .int, .val (.bool b) => .ok (.int (if b then 1 else 0))
    | .ty .int, _ => .error (.varlink (.invalidParameter (.str parentName)))
    -- anything that is not a _Struct at this point raises InvalidParameter:
    -- a _Method or _Error member, or a missing member lookup
    | .mem (.method _ _), _ =>
        .error (.varlink (.invalidParameter (.str parentName)))
    | .mem (.err _), _ =>
        .error (.varlink (.invalidParameter (.str parentName)))
    | .missing, _ =>
        .error (.varlink (.invalidParameter (.str parentName)))
    -- _Struct: positional tuple plus keyword arguments, or a plain value
    | .ty (.struct fields), .tup vs =>
        (match filterFieldsGo
            (fun p ft v => filterParams members fuel p (.ty ft) (.val v) [])
            parentName fields (some vs) none kwargs [] with
         | .error e => .error e
         | .ok out => .ok (.obj out))
    | .ty (.struct fields), .val v =>
        (match filterFieldsGo
            (fun p ft v1 => filterParams members fuel p (.ty ft) (.val v1) [])
            parentName fields none (some v) kwargs [] with
         | .error e => .error e
         | .ok out => .ok (.obj out))

/-! ## client.py — NUL frame reader and writer -/

/-- Byte strings are modelled as lists of naturals. -/
abbrev Bytes := List Nat

/-- Python `buffer.partition(b'\x00')`: the part before the first NUL
byte and, when a NUL was found, the part after it. -/
def partitionNul : Bytes → Bytes × Option Bytes
  | [] => ([], none)
  | b :: rest =>
      if b = 0 then ([], some rest)
      else
        let (m, r) := partitionNul rest
        (b :: m, r)

/-- Embedding of one `next()` on the reader generator
`SimpleClientInterfaceHandler._next_message` (client.py lines 440-467).
The connection's successive `recv` results are modelled by `chunks`: an
exhausted chunk list or an empty chunk is a zero-length read, which
raises `BrokenPipeError("Disconnected")`, modelled as `none`.  On a yield
the message is returned together with the new buffer and the remaining
chunks. -/
def nextMessage : Bytes → List Bytes → Option (Bytes × Bytes × List Bytes)
  | buffer, chunks =>
    match partitionNul buffer with
    | (message, some rest) =>
        if message.isEmpty then
          -- a found separator with an empty message is not yielded; the
          -- loop falls through to the recv
          match chunks with
          | [] => none
          | c :: cs => if c.isEmpty then none else nextMessage (rest ++ c) cs
        else
          some (message, rest, chunks)
    | (message, none) =>
        -- no separator: the buffer is kept as is and more data is read
        match chunks with
        | [] => none
        | c :: cs => if c.isEmpty then none else nextMessage (message ++ c) cs
termination_by _ chunks => chunks.length

/-- Repeated `next()` calls on the reader generator, collecting the
yielded messages; `fuel` bounds the number of calls. -/
def drainMessages : Nat → Bytes → List Bytes → List Bytes
  | 0, _, _ => []
  | fuel + 1, buffer, chunks =>
      match nextMessage buffer chunks with
      | none => []
      | some (m, buffer1, chunks1) => m :: drainMessages fuel buffer1 chunks1

/-- Embedding of `SimpleClientInterfaceHandler._send_message` at the byte
level: the serialized message followed by a single NUL byte. -/
def sendFrame (out : Bytes) : Bytes := out ++ [0]

/-! ## client.py — call state machine -/

/-- A parsed varlink interface as the client and server consume it:
its name and its member table. -/
structure InterfaceModel where
  name : String
  members : List (String × Member)

/-- Embedding of `Interface.get_method` (scanner.py lines 284-288): a
member that exists and is a `_Method`, otherwise `MethodNotFound`. -/
def getMethod (i : InterfaceModel) (name : String) :
    Except VarlinkExc (VType × VType) :=
  match i.members.lookup name with
  | some (.method inT outT) => .ok (inT, outT)
  | _ => .error (.methodNotFound (.str name))

/-- Exceptions surfacing from the client call state machine. -/
inductive ClientExc : Type where
  | connectionError (msg : String) : ClientExc
  | raised (e : NewResult) : ClientExc
  | filterFailed (e : PyExc) : ClientExc
  | brokenPipe : ClientExc

/-- Observable outcome of `ClientInterfaceHandler._call`: the request
frames transmitted, the `_in_use` flag afterwards, whether the handler
closed the connection, and the returned value or raised exception. -/
structure CallResult where
  sent : List Value
  inUse : Bool
  closed : Bool
  result : Except ClientExc Value

/-- Embedding of `ClientInterfaceHandler._call` (client.py lines 312-348).
`replies` models the stream of decoded reply frames the connection will
deliver; `inUse` is the `_in_use` flag at entry. -/
def clientCall (iface : InterfaceModel) (fuel : Nat) (inUse : Bool)
    (methodName : String) (args : PyArgs) (kwargs : List (String × Value))
    (oneway : Bool) (replies : List Value) : CallResult :=
  if inUse then
    ⟨[], inUse, false, .error (.connectionError
      "Tried to call a varlink method, while other call still in progress")⟩
  else
    match getMethod iface methodName with
    | .error e => ⟨[], false, false, .error (.raised (.exc e))⟩
    | .ok (inT, outT) =>
      match filterParams iface.members fuel "client.call" (.ty inT) args kwargs with
      | .error e => ⟨[], false, false, .error (.filterFailed e)⟩
      | .ok parameters =>
        let out0 := [("method", Value.str (iface.name ++ "." ++ methodName))]
        let out1 := if oneway then dictSet out0 "oneway" (.bool true) else out0
        let out := if parameters.truthy then dictSet out1 "parameters" parameters
          else out1
        let sent := [Value.obj out]
        if oneway then ⟨sent, false, false, .ok .null⟩
        else
          match replies with
          | [] => ⟨sent, true, false, .error .brokenPipe⟩
          | reply :: _ =>
            match nextVarlinkMessage reply with
            | .error e =>
                -- _next_varlink_message clears _in_use before raising
                ⟨sent, false, false, .error (.raised e)⟩
            | .ok (message, more) =>
              if more then
                ⟨sent, false, true, .error (.connectionError
                  "Server indicated more varlink messages")⟩
              else if message.truthy then
                match filterParams iface.members fuel "client.reply" (.ty outT)
                    (.val message) [] with
                | .error e => ⟨sent, false, false, .error (.filterFailed e)⟩
                | .ok filtered => ⟨sent, false, false, .ok filtered⟩
              else ⟨sent, false, false, .ok message⟩

/-- The reply loop of `ClientInterfaceHandler._call_more`
(client.py lines 361-369): values yielded by the generator, the
exception terminating it if any, and the reply frames left unread. -/
def callMoreLoop (members : List (String × Member)) (fuel : Nat)
    (outT : VType) : List Value → List Value × Option ClientExc × List Value
  | [] => ([], some .brokenPipe, [])
  | reply :: rest =>
    match nextVarlinkMessage reply with
    | .error e => ([], some (.raised e), rest)
    | .ok (message, more) =>
      let filtered :=
        if message.truthy then
          filterParams members fuel "client.reply" (.ty outT) (.val message) []
        else .ok message
      match filtered with
      | .error e => ([], some (.filterFailed e), rest)
      | .ok m =>
          if more then
            let (ys, exc, rem) := callMoreLoop members fuel outT rest
            (m :: ys, exc, rem)
          else
            ([m], none, rest)

/-- Observable outcome of the `ClientInterfaceHandler._call_more`
generator, run to completion. -/
structure CallMoreResult where
  sent : List Value
  yields : List Value
  exc : Option ClientExc
  remaining : List Value

/-- Embedding of `ClientInterfaceHandler._call_more`
(client.py lines 350-369), driving the returned generator to its end. -/
def clientCallMore (iface : InterfaceModel) (fuel : Nat) (inUse : Bool)
    (methodName : String) (args : PyArgs) (kwargs : List (String × Value))
    (replies : List Value) : CallMoreResult :=
  if inUse then
    ⟨[], [], some (.connectionError
      "Tried to call a varlink method, while other call still in progress"),
      replies⟩
  else
    match getMethod iface methodName with
    | .error e => ⟨[], [], some (.raised (.exc e)), replies⟩
    | .ok (inT, outT) =>
      match filterParams iface.members fuel "client.call" (.ty inT) args kwargs with
      | .error e => ⟨[], [], some (.filterFailed e), replies⟩
      | .ok parameters =>
        let out := [("method", Value.str (iface.name ++ "." ++ methodName)),
                    ("more", Value.bool true),
                    ("parameters", parameters)]
        let (ys, exc, rem) := callMoreLoop iface.members fuel outT replies
        ⟨[Value.obj out], ys, exc, rem⟩

/-! ## server.py — service dispatcher -/

/-- A value yielded by a handler generator (a reply dictionary), or an
exception raised while producing the next value. -/
inductive GenItem : Type where
  | val (o : List (String × Value)) : GenItem
  | exc (e : PyExc) : GenItem

/-- What invoking the handler callable returns for the analysed request:
a generator, a single value, or a raised exception. -/
inductive HandlerOut : Type where
  | gen (items : List GenItem) : HandlerOut
  | single (v : Value) : HandlerOut
  | raised (e : PyExc) : HandlerOut

/-- A handler method as the dispatcher introspects it: whether its
signature declares the `_more` / `_oneway` / `_upgrade` keyword
parameters, and the invocation outcome. -/
structure HandlerMethod where
  declaresMore : Bool
  declaresOneway : Bool
  declaresUpgrade : Bool
  out : HandlerOut

/-- A registered service: interface definitions and handler objects,
both keyed by interface name; handler objects map method names to
callables. -/
structure ServiceModel where
  interfaces : List (String × InterfaceModel)
  handlers : List (String × List (String × HandlerMethod))

/-- Python `"s".rpartition(".")` restricted to the two components the
dispatcher uses: the part before the last dot (empty when there is no
dot) and the part after it. -/
def rpartitionDot (s : String) : String × String :=
  let revd := s.data.reverse
  let after := revd.takeWhile (fun c => c ≠ '.')
  if after.length = revd.length then
    ("", s)
  else
    (String.mk ((revd.drop (after.length + 1)).reverse),
     String.mk after.reverse)

/-- First key of `parameters` that is not a declared input field, in
dictionary order (the dispatcher's unknown-parameter loop). -/
def firstUnknown (kvs : List (String × Value)) (fieldNames : List String) :
    Option String :=
  (kvs.find? (fun kv => !(fieldNames.contains kv.1))).map Prod.fst

/-- Python truthiness of `message.get(flag, False)` for the request
flags `more` / `oneway` / `upgrade`. -/
def flagOf (message : Value) (flag : String) : Bool :=
  match message.get flag with
  | some v => v.truthy
  | none => false

/-- The result of `Service.handle` on one request: the reply frames
written to the connection, and the exception escaping the generator, if
any (server.py's `_handle` catches only `VarlinkError`). -/
structure HandleResult where
  frames : List Value
  propagated : Option PyExc

/-- The generator-driving loop of `Service._handle`
(server.py lines 178-206).  A yielded exception is re-raised: a
`VarlinkError` is caught by the enclosing handler and encoded as an
error frame, anything else escapes.  Under a `_oneway=True` keyword the
yielded values are discarded.  A `_continues` entry is removed from the
value and echoed as the frame's `continues` flag, ending the loop when
falsy. -/
def driveGen (members : List (String × Member)) (fuel : Nat) (outT : VType)
    (onewayKw : Bool) : List GenItem → List Value × Option PyExc
  | [] => ([], none)
  | .exc e :: _ =>
      (match e with
       | .varlink ve => ([ve.asDict], none)
       | e0 => ([], some e0))
  | .val o :: rest =>
      if onewayKw then driveGen members fuel outT onewayKw rest
      else
        match dictGet o "_continues" with
        | some contv =>
            let o1 := dictDel o "_continues"
            (match filterParams members fuel "server.reply" (.ty outT)
                (.val (.obj o1)) [] with
             | .error (.varlink ve) => ([ve.asDict], none)
             | .error e0 => ([], some e0)
             | .ok filtered =>
                 let frame := Value.obj
                   [("continues", .bool contv.truthy),
                    ("parameters", if filtered.truthy then filtered else .obj [])]
                 if contv.truthy then
                   let (fs, exc) := driveGen members fuel outT onewayKw rest
                   (frame :: fs, exc)
                 else
                   ([frame], none))
        | none =>
            (match filterParams members fuel "server.reply" (.ty outT)
                (.val (.obj o)) [] with
             | .error (.varlink ve) => ([ve.asDict], none)
             | .error e0 => ([], some e0)
             | .ok filtered =>
                 let frame := Value.obj
                   [("parameters", if filtered.truthy then filtered else .obj [])]
                 let (fs, exc) := driveGen members fuel outT onewayKw rest
                 (frame :: fs, exc))

/-- Embedding of `Service._handle` together with the frame loop of
`Service.handle` (server.py lines 104-240) for one decoded request.  The
body catches `VarlinkError` (yielding it as an error frame) and nothing
else, so any other exception escapes the generator and tears the
connection down. -/
def serviceHandle (svc : ServiceModel) (fuel : Nat) (message : Value) :
    HandleResult :=
  let core : Except PyExc (List Value × Option PyExc) := do
    let methodStr ← match message.get "method" with
      | some (.str s) => pure s
      | none => pure ""
      | some _ => throw (.other "AttributeError")
    let (ifaceName, methodName) := rpartitionDot methodStr
    if ifaceName = "" ∨ methodName = "" then
      throw (.varlink (.interfaceNotFound (.str ifaceName)))
    let iface ← match svc.interfaces.lookup ifaceName with
      | some i => pure i
      | none => throw (.varlink (.interfaceNotFound (.str ifaceName)))
    let (inT, outT) ← match getMethod iface methodName with
      | .ok p => pure p
      | .error e => throw (.varlink e)
    let parameters := match message.get "parameters" with
      | some .null => Value.obj []
      | some p => p
      | none => .obj []
    let handlerMethods := (svc.handlers.lookup iface.name).getD []
    -- `for name in parameters` / `for name in fields`: the input struct
    -- field table (non-object parameter values do not occur on this path)
    let paramKvs ← match parameters with
      | .obj kvs => pure kvs
      | _ => throw .typeError
    let fields ← match inT with
      | .struct fs => pure fs
      | _ => throw (.other "AttributeError")
    let fieldNames := fields.map Prod.fst
    match firstUnknown paramKvs fieldNames with
    | some name => throw (.varlink (.invalidParameter (.str name)))
    | none => do
    let paramKvs := fieldNames.foldl
      (fun acc n => if (acc.lookup n).isSome then acc else dictSet acc n .null)
      paramKvs
    let _ ← filterParams iface.members fuel "server.call" (.ty inT)
      (.val (.obj paramKvs)) []
    let hm ← match handlerMethods.lookup methodName with
      | some hm => pure hm
      | none => throw (.varlink (.methodNotImplemented (.str methodName)))
    let onewayKw := flagOf message "oneway" && hm.declaresOneway
    match hm.out with
    | .raised e => throw e
    | .single v =>
        if flagOf message "oneway" then
          -- `yield None`: Service.handle stops without writing a frame
          pure ([], none)
        else
          pure ([Value.obj [("parameters", if v.truthy then v else .obj [])]],
            none)
    | .gen items => pure (driveGen iface.members fuel outT onewayKw items)
  match core with
  | .ok r => ⟨r.1, r.2⟩
  | .error (.varlink ve) => ⟨[ve.asDict], none⟩
  | .error e => ⟨[], some e⟩

/-! ## scanner.py — lexer and recursive-descent parser

The definitions below embed the `Scanner` token patterns (compiled with
`re.ASCII`) and the parsing entry points `Scanner.read_type`,
`Scanner.read_struct`, `Scanner.read_member` and `Interface.__init__`.
`none` models a raised `SyntaxError`.  Parsing failure caused by
exhausted fuel is also `none`; the theorems below evaluate the parser on
concrete inputs whose parse uses only a few levels. -/

/-- The character class `[a-z]` under `re.ASCII`. -/
def isLowerAZ (c : Char) : Bool := 'a' ≤ c && c ≤ 'z'

/-- The character class `[A-Z]` under `re.ASCII`. -/
def isUpperAZ (c : Char) : Bool := 'A' ≤ c && c ≤ 'Z'

/-- The character class `[0-9]`. -/
def isDigit09 (c : Char) : Bool := '0' ≤ c && c ≤ '9'

/-- The word-character class `[A-Za-z0-9_]` (what `\b` is sensitive to
and what trails identifiers). -/
def isWordChar (c : Char) : Bool :=
  isLowerAZ c || isUpperAZ c || isDigit09 c || c = '_'

/-- The class `[a-z0-9]` opening a non-initial interface-name label. -/
def isLowerDigit (c : Char) : Bool := isLowerAZ c || isDigit09 c

/-- The class `[a-z0-9-]` continuing an interface-name label. -/
def isLabelChar (c : Char) : Bool := isLowerDigit c || c = '-'

/-- The scanner's whitespace pattern `([ \t\n]|#.*$)+`: blanks and
`#`-to-end-of-line comments.  `inComment` tracks being inside a comment
run. -/
def skipWsA : Bool → List Char → List Char
  | _, [] => []
  | true, c :: rest =>
      if c = '\n' then skipWsA false rest else skipWsA true rest
  | false, c :: rest =>
      if c = ' ' || c = '\t' || c = '\n' then skipWsA false rest
      else if c = '#' then skipWsA true rest
      else c :: rest

/-- Skip whitespace and comments before a token, as `Scanner.get` does. -/
def skipWs (s : List Char) : List Char := skipWsA false s

/-- The scanner's `keyword_pattern`
`\b[a-z]+\b|[:,(){}]|->|\[\]|\?|\[string\]\(\)|\[string\]`, with the
alternatives tried in the source's order.  Returns the matched token and
the remaining input. -/
def keywordToken : List Char → Option (String × List Char)
  | [] => none
  | c :: cs =>
      if isLowerAZ c then
        let run := c :: cs.takeWhile isLowerAZ
        let rest := cs.dropWhile isLowerAZ
        match rest with
        | d :: _ =>
            if isWordChar d then none else some (String.mk run, rest)
        | [] => some (String.mk run, [])
      else if c = ':' || c = ',' || c = '(' || c = ')' || c = '{' || c = '}' then
        some (String.mk [c], cs)
      else
        match c :: cs with
        | '-' :: '>' :: rest => some ("->", rest)
        | '[' :: ']' :: rest => some ("[]", rest)
        | '?' :: rest => some ("?", rest)
        | '[' :: 's' :: 't' :: 'r' :: 'i' :: 'n' :: 'g' :: ']' :: '(' :: ')' :: rest =>
            some ("[string]()", rest)
        | '[' :: 's' :: 't' :: 'r' :: 'i' :: 'n' :: 'g' :: ']' :: rest =>
            some ("[string]", rest)
        | _ => none

/-- `Scanner.get(expected)` for a keyword or structural token: skip
whitespace, match the keyword pattern, succeed when the token equals the
expected one. -/
def getKeyword (expected : String) (s : List Char) : Option (List Char) :=
  match keywordToken (skipWs s) with
  | some (tok, rest) => if tok = expected then some rest else none
  | none => none

/-- The `member-name` pattern `\b[A-Z][A-Za-z0-9_]*\b`. -/
def memberNameToken : List Char → Option (String × List Char)
  | [] => none
  | c :: cs =>
      if isUpperAZ c then
        some (String.mk (c :: cs.takeWhile isWordChar), cs.dropWhile isWordChar)
      else none

/-- The `identifier` pattern `\b[a-z][A-Za-z0-9_]*\b`. -/
def identifierToken : List Char → Option (String × List Char)
  | [] => none
  | c :: cs =>
      if isLowerAZ c then
        some (String.mk (c :: cs.takeWhile isWordChar), cs.dropWhile isWordChar)
      else none

/-- Greedy matcher for the group part `(\.[a-z0-9][a-z0-9-]*)+` of the
`interface-name` pattern: consume as many `.`-label groups as possible
and return the consumed characters with the rest.  `inLabel` is true
while inside a label tail.  Greedy matching agrees with the regex
backtracking semantics here: nothing follows the pattern, so a greedy
success never fails, and shrinking a greedy run only exposes a label
character where the pattern would require a `.`. -/
def dotGroupsGo (inLabel : Bool) : List Char → List Char × List Char
  | [] => ([], [])
  | c :: cs =>
      if inLabel && isLabelChar c then
        let (rest, r2) := dotGroupsGo true cs
        (c :: rest, r2)
      else if c = '.' then
        match cs with
        | d :: ds =>
            if isLowerDigit d then
              let (rest, r2) := dotGroupsGo true ds
              ('.' :: d :: rest, r2)
            else ([], c :: cs)
        | [] => ([], [c])
      else ([], c :: cs)

/-- The `interface-name` pattern `[a-z]+(\.[a-z0-9][a-z0-9-]*)+` of
scanner.py line 36, matched greedily at the current position (`re.match`
matches a prefix).  The first label admits only `[a-z]`; shrinking its
greedy run only exposes another `[a-z]` character where a `.` is
required, so the greedy match is the regex match. -/
def interfaceNameToken : List Char → Option (String × List Char)
  | [] => none
  | c :: cs =>
      if isLowerAZ c then
        let run := c :: cs.takeWhile isLowerAZ
        let rest := cs.dropWhile isLowerAZ
        let (groups, rest2) := dotGroupsGo false rest
        if groups.isEmpty then none else some (String.mk (run ++ groups), rest2)
      else none

mutual

/-- Embedding of `Scanner.read_type` (scanner.py lines 81-114). -/
def readType : Nat → Bool → List Char → Option (VType × List Char)
  | 0, _, _ => none
  | fuel + 1, lastmaybe, s =>
    match getKeyword "?" s with
    | some s1 =>
        if lastmaybe then none
        else
          match readType fuel true s1 with
          | some (t, s2) => some (.maybe t, s2)
          | none => none
    | none =>
    match getKeyword "[string]()" s with
    | some s1 => some (.set, s1)
    | none =>
    match getKeyword "[string]" s with
    | some s1 =>
        match readType fuel false s1 with
        | some (t, s2) => some (.dict t, s2)
        | none => none
    | none =>
    match getKeyword "[]" s with
    | some s1 =>
        match readType fuel false s1 with
        | some (t, s2) => some (.array t, s2)
        | none => none
    | none =>
    match getKeyword "object" s with
    | some s1 => some (.object, s1)
    | none =>
    match getKeyword "bool" s with
    | some s1 => some (.bool, s1)
    | none =>
    match getKeyword "int" s with
    | some s1 => some (.int, s1)
    | none =>
    match getKeyword "float" s with
    | some s1 => some (.float, s1)
    | none =>
    match getKeyword "string" s with
    | some s1 => some (.str, s1)
    | none =>
    match memberNameToken (skipWs s) with
    | some (n, s1) => some (.custom n, s1)
    | none => readStruct fuel s

/-- Embedding of `Scanner.read_struct` (scanner.py lines 116-151). -/
def readStruct : Nat → List Char → Option (VType × List Char)
  | 0, _ => none
  | fuel + 1, s =>
    match getKeyword "(" s with
    | none => none
    | some s1 =>
      match getKeyword ")" s1 with
      | some s2 => some (.struct [], s2)
      | none =>
        match readStructLoop fuel none [] [] s1 with
        | none => none
        | some (isenum, fields, tags, s2) =>
          match getKeyword ")" s2 with
          | none => none
          | some s3 =>
              if isenum = some true then some (.enum tags, s3)
              else some (.struct fields, s3)

/-- The field/tag loop inside `read_struct`: `isenum` is the `_isenum`
tri-state, `fields` the typed fields collected so far, `tags` the
enum tags collected so far. -/
def readStructLoop : Nat → Option Bool → List (String × VType) →
    List String → List Char →
    Option (Option Bool × List (String × VType) × List String × List Char)
  | 0, _, _, _, _ => none
  | fuel + 1, isenum, fields, tags, s =>
    match identifierToken (skipWs s) with
    | none => none
    | some (name, s1) =>
      match isenum with
      | none =>
        (match getKeyword ":" s1 with
         | some s2 =>
             (match readType fuel false s2 with
              | none => none
              | some (t, s3) =>
                  let fields1 := fields ++ [(name, t)]
                  match getKeyword "," s3 with
                  | some s4 => readStructLoop fuel (some false) fields1 tags s4
                  | none => some (some false, fields1, tags, s3))
         | none =>
           match getKeyword "," s1 with
           | some s2 => readStructLoop fuel (some true) fields (tags ++ [name]) s2
           | none => none)
      | some false =>
          (match getKeyword ":" s1 with
           | none => none
           | some s2 =>
             match readType fuel false s2 with
             | none => none
             | some (t, s3) =>
                 let fields1 := fields ++ [(name, t)]
                 match getKeyword "," s3 with
                 | some s4 => readStructLoop fuel (some false) fields1 tags s4
                 | none => some (some false, fields1, tags, s3))
      | some true =>
          let tags1 := tags ++ [name]
          match getKeyword "," s1 with
          | some s2 => readStructLoop fuel (some true) fields tags1 s2
          | none => some (some true, fields, tags1, s1)

end

/-- Embedding of `Scanner.read_member` (scanner.py lines 153-194).  The
`method_signature` regex probe of the source does not advance the
scanner position and is omitted. -/
def readMember (fuel : Nat) (s : List Char) :
    Option ((String × Member) × List Char) :=
  match getKeyword "type" s with
  | some s1 =>
      (match memberNameToken (skipWs s1) with
       | none => none
       | some (n, s2) =>
           match readType fuel false s2 with
           | some (t, s3) => some ((n, Member.alias t), s3)
           | none => none)
  | none =>
  match getKeyword "method" s with
  | some s1 =>
      (match memberNameToken (skipWs s1) with
       | none => none
       | some (n, s2) =>
           match readStruct fuel s2 with
           | none => none
           | some (inT, s3) =>
             match getKeyword "->" s3 with
             | none => none
             | some s4 =>
               match readStruct fuel s4 with
               | none => none
               | some (outT, s5) => some ((n, Member.method inT outT), s5))
  | none =>
  match getKeyword "error" s with
  | some s1 =>
      (match memberNameToken (skipWs s1) with
       | none => none
       | some (n, s2) =>
           match readType fuel false s2 with
           | some (t, s3) => some ((n, Member.err t), s3)
           | none => none)
  | none => none

/-- Python `members[name] = member` on the ordered member table. -/
def memberSet : List (String × Member) → String → Member →
    List (String × Member)
  | [], k, v => [(k, v)]
  | (k0, v0) :: rest, k, v =>
      if k0 = k then (k0, v) :: rest else (k0, v0) :: memberSet rest k v

/-- The member loop of `Interface.__init__`: read members until
`Scanner.end()`. -/
def membersLoop : Nat → List (String × Member) → List Char →
    Option (List (String × Member))
  | 0, _, _ => none
  | fuel + 1, acc, s =>
      if (skipWs s).isEmpty then some acc
      else
        match readMember fuel s with
        | none => none
        | some ((n, m), s1) => membersLoop fuel (memberSet acc n m) s1

/-- Embedding of `Interface.__init__` (scanner.py lines 266-278): expect
the `interface` keyword, the interface name, then members until the end
of the input; `none` is a raised `SyntaxError`. -/
def parseInterface (fuel : Nat) (s : List Char) :
    Option (String × List (String × Member)) :=
  match getKeyword "interface" s with
  | none => none
  | some s1 =>
    match interfaceNameToken (skipWs s1) with
    | none => none
    | some (name, s2) =>
      match membersLoop fuel [] s2 with
      | none => none
      | some ms => some (name, ms)

/-! ## Example services used by the dispatcher theorems -/

/-- A one-method interface: `M() -> (x: int)`. -/
def exIface : InterfaceModel :=
  ⟨"org.example.t", [("M", .method (.struct []) (.struct [("x", .int)]))]⟩

/-- A service registering `exIface` with the given handler for `M`. -/
def exService (hm : HandlerMethod) : ServiceModel :=
  ⟨[("org.example.t", exIface)], [("org.example.t", [("M", hm)])]⟩

/-- A oneway request for `org.example.t.M`. -/
def exOnewayRequest : Value :=
  .obj [("method", .str "org.example.t.M"), ("oneway", .bool true)]

/-- A one-method interface with one declared input field:
`N(a: int) -> ()`. -/
def exIface2 : InterfaceModel :=
  ⟨"org.example.u", [("N", .method (.struct [("a", .int)]) (.struct []))]⟩

/-- A service registering `exIface2` with the given handler for `N`. -/
def exService2 (hm : HandlerMethod) : ServiceModel :=
  ⟨[("org.example.u", exIface2)], [("org.example.u", [("N", hm)])]⟩

/-- A request for `org.example.u.N` whose parameters carry the undeclared
field `zzz` next to the declared field `a`. -/
def exUnknownFieldRequest : Value :=
  .obj [("method", .str "org.example.u.N"),
        ("parameters", .obj [("zzz", .int 1), ("a", .int 2)])]

/-- Boolean check that a filter result object only carries keys from the
given name list. -/
def objKeysWithin (r : Value) (names : List String) : Bool :=
  match r with
  | .obj out => out.all (fun kv => decide (kv.1 ∈ names))
  | _ => false

/-! ## Framer lemmas and claim theorems -/

theorem partitionNul_no_nul (b : Bytes) (h : (0 : Nat) ∉ b) :
    partitionNul b = (b, none) := by
  induction b with
  | nil => rfl
  | cons x xs ih =>
      have hx : x ≠ 0 := fun hx0 => h (hx0 ▸ List.mem_cons_self x xs)
      have hxs : (0 : Nat) ∉ xs := fun hm => h (List.mem_cons_of_mem x hm)
      simp [partitionNul, hx, ih hxs]

theorem partitionNul_append (m rest : Bytes) (h : (0 : Nat) ∉ m) :
    partitionNul (m ++ 0 :: rest) = (m, some rest) := by
  induction m with
  | nil => simp [partitionNul]
  | cons x xs ih =>
      have hx : x ≠ 0 := fun hx0 => h (hx0 ▸ List.mem_cons_self x xs)
      have hxs : (0 : Nat) ∉ xs := fun hm => h (List.mem_cons_of_mem x hm)
      simp [partitionNul, hx, ih hxs]

/-- With a NUL-free buffer a reader step can only read more data. -/
theorem nextMessage_no_nul (buffer : Bytes) (chunks : List Bytes)
    (h : (0 : Nat) ∉ buffer) :
    nextMessage buffer chunks =
      match chunks with
      | [] => none
      | c :: cs => if c.isEmpty then none else nextMessage (buffer ++ c) cs := by
  rw [nextMessage, partitionNul_no_nul buffer h]

/-- A buffer beginning with a whole non-empty NUL-terminated message makes
the reader yield that message at once. -/
theorem nextMessage_yield (m rest : Bytes) (chunks : List Bytes)
    (hm : m ≠ []) (h : (0 : Nat) ∉ m) :
    nextMessage (m ++ 0 :: rest) chunks = some (m, rest, chunks) := by
  rw [nextMessage, partitionNul_append m rest h]
  simp [hm]

/-- Whenever the unread stream starts with a non-empty NUL-free message
and its separator, one reader step yields exactly that message, leaving
the rest of the stream unread. -/
theorem nextMessage_spec (chunks : List Bytes) :
    ∀ (buf m rest : Bytes),
      (∀ c ∈ chunks, c ≠ []) → m ≠ [] → (0 : Nat) ∉ m →
      buf ++ chunks.flatten = m ++ 0 :: rest →
      ∃ buf2 chunks2,
        nextMessage buf chunks = some (m, buf2, chunks2) ∧
        (∀ c ∈ chunks2, c ≠ []) ∧
        buf2 ++ chunks2.flatten = rest := by
  induction chunks with
  | nil =>
      intro buf m rest _ hm hnul heq
      simp only [List.flatten_nil, List.append_nil] at heq
      subst heq
      exact ⟨rest, [], nextMessage_yield m rest [] hm hnul, by simp, by simp⟩
  | cons c cs ih =>
      intro buf m rest hc hm hnul heq
      by_cases h0 : (0 : Nat) ∈ buf
      · rcases List.append_eq_append_iff.mp heq with ⟨a, ha1, _⟩ | ⟨a, ha1, ha2⟩
        · exact absurd (ha1 ▸ List.mem_append_left a h0) hnul
        · match a, ha2 with
          | [], ha2 =>
              have hbm : buf = m := by simpa using ha1
              exact absurd (hbm ▸ h0) hnul
          | x :: a2, ha2 =>
              have hx : x = 0 := by
                have := congrArg (fun l => l.head?) ha2
                simpa using this.symm
              have hrest : rest = a2 ++ (c :: cs).flatten := by
                have := congrArg (fun l => l.tail) ha2
                simpa using this
              subst hx
              refine ⟨a2, c :: cs, ?_, hc, hrest.symm⟩
              rw [ha1, nextMessage_yield m a2 (c :: cs) hm hnul]
      · have hbufm := nextMessage_no_nul buf (c :: cs) h0
        have hcne : c ≠ [] := hc c (List.mem_cons_self c cs)
        have hce : c.isEmpty = false := by simpa [List.isEmpty_iff] using hcne
        rw [hbufm]
        simp only [hce, Bool.false_eq_true, if_false]
        apply ih (buf ++ c) m rest (fun d hd => hc d (List.mem_cons_of_mem c hd))
          hm hnul
        rw [List.append_assoc, ← List.flatten_cons]
        exact heq

/-- Reading a whole well-formed stream of framed messages through the
reader yields the messages in order, for any chunking. -/
theorem drainMessages_spec (ms : List Bytes) :
    ∀ (buf : Bytes) (chunks : List Bytes),
      (∀ m ∈ ms, m ≠ [] ∧ (0 : Nat) ∉ m) →
      (∀ c ∈ chunks, c ≠ []) →
      buf ++ chunks.flatten = (ms.map sendFrame).flatten →
      drainMessages ms.length buf chunks = ms := by
  induction ms with
  | nil => intro buf chunks _ _ _; rfl
  | cons m ms ih =>
      intro buf chunks hms hc heq
      have hmsend : (List.map sendFrame (m :: ms)).flatten
          = m ++ 0 :: (List.map sendFrame ms).flatten := by
        simp [sendFrame]
      rw [hmsend] at heq
      obtain ⟨buf2, chunks2, hnext, hc2, heq2⟩ :=
        nextMessage_spec chunks buf m ((ms.map sendFrame).flatten) hc
          (hms m (List.mem_cons_self m ms)).1 (hms m (List.mem_cons_self m ms)).2
          heq
      have : drainMessages (m :: ms).length buf chunks
          = m :: drainMessages ms.length buf2 chunks2 := by
        simp [drainMessages, hnext]
      rw [this, ih buf2 chunks2 (fun x hx => hms x (List.mem_cons_of_mem m hx))
        hc2 heq2]

/-- C8: for any finite sequence of messages, writing each as its
serialization followed by a single NUL byte and reading the concatenation
back through the frame reader yields exactly the messages in order, for
every partition of the byte stream into read chunks.  (JSON serializations
are non-empty and NUL-free, which the hypotheses record.) -/
theorem varlink_C8_framing_roundtrip (ms : List Bytes) (chunks : List Bytes)
    (hms : ∀ m ∈ ms, m ≠ [] ∧ (0 : Nat) ∉ m)
    (hchunks : ∀ c ∈ chunks, c ≠ [])
    (hstream : chunks.flatten = (ms.map sendFrame).flatten) :
    drainMessages ms.length [] chunks = ms :=
  drainMessages_spec ms [] chunks hms hchunks (by simpa using hstream)

/-- Witness for C8 at a concrete two-message stream split at an awkward
chunk boundary. -/
theorem varlink_C8_witness :
    drainMessages 2 [] [[104], [105, 0, 119], [0]] = [[104, 105], [119]] :=
  varlink_C8_framing_roundtrip [[104, 105], [119]] [[104], [105, 0, 119], [0]]
    (by decide) (by decide) (by decide)

/-- A non-empty NUL-free run of any length arriving as one chunk, followed
by a chunk holding the separator, is buffered whole and yielded as one
message. -/
theorem nextMessage_single_run (r : Bytes) (hr : r ≠ [])
    (hnul : (0 : Nat) ∉ r) :
    nextMessage [] [r, [0]] = some (r, [], []) := by
  rw [nextMessage_no_nul [] [r, [0]] (by simp)]
  have hre : r.isEmpty = false := by simpa [List.isEmpty_iff] using hr
  simp only [hre, Bool.false_eq_true, if_false, List.nil_append]
  rw [nextMessage_no_nul r [[0]] hnul]
  simp only [List.isEmpty_nil, List.isEmpty_cons, Bool.false_eq_true, if_false]
  have : r ++ [0] = r ++ 0 :: ([] : Bytes) := rfl
  rw [this, nextMessage_yield r [] [] hr hnul]

/-- C4 (amended): the frame reader has no inbound size cap.  A non-empty
NUL-free byte run of arbitrary length followed by a NUL separator is
buffered whole and yielded as one message; no error of any kind is raised
while the run grows, and the only reader failure is the end-of-stream
`BrokenPipeError`. -/
theorem varlink_C4_no_size_cap (r : Bytes) (hr : r ≠ [])
    (hnul : (0 : Nat) ∉ r) :
    nextMessage [] [r, [0]] = some (r, [], []) :=
  nextMessage_single_run r hr hnul

/-- Witness for the amended C4 theorem. -/
theorem varlink_C4_witness :
    nextMessage [] [[65], [0]] = some ([65], [], []) :=
  varlink_C4_no_size_cap [65] (by decide) (by decide)

/-- Counterexample to C4 as stated: an inbound run of 2 ^ 25 + 1 bytes
exceeds the claimed 32 MiB cap and contains no NUL separator, yet the
reader raises no error at all: it buffers the whole run and yields it as
one message once the separator arrives. -/
theorem varlink_C4_counterexample :
    32 * 1024 * 1024 < (List.replicate (2 ^ 25 + 1) (65 : Nat)).length ∧
    (0 : Nat) ∉ List.replicate (2 ^ 25 + 1) (65 : Nat) ∧
    nextMessage [] [List.replicate (2 ^ 25 + 1) (65 : Nat), [0]] =
      some (List.replicate (2 ^ 25 + 1) (65 : Nat), [], []) := by
  have hne : List.replicate (2 ^ 25 + 1) (65 : Nat) ≠ [] := by
    intro h
    have h1 := congrArg List.length h
    rw [List.length_replicate] at h1
    norm_num at h1
  have hmem : (0 : Nat) ∉ List.replicate (2 ^ 25 + 1) (65 : Nat) := by
    intro h
    have := List.eq_of_mem_replicate h
    norm_num at this
  refine ⟨?_, hmem, nextMessage_single_run _ hne hmem⟩
  rw [List.length_replicate]
  norm_num


/-- C1: the client reply reader raises a typed exception for every reply
carrying an `error` field.  The subclasses `InterfaceNotFound`,
`MethodNotImplemented` and `InvalidParameter` are dispatched as the claim
states and user-defined errors raise the generic `VarlinkError` with the
payload preserved verbatim, but the standard
`org.varlink.service.MethodNotFound` error is NOT dispatched to its
`MethodNotFound` subclass: the if/elif chain of `VarlinkError.new` tests
`MethodNotImplemented` twice and `MethodNotFound` never, so that error
name falls through to the generic branch. -/
theorem varlink_C1_error_classification :
    nextVarlinkMessage (.obj
        [("error", .str "org.varlink.service.InterfaceNotFound"),
         ("parameters", .obj [("interface", .str "org.foo")])]) =
      .error (.exc (.interfaceNotFound (.str "org.foo"))) ∧
    nextVarlinkMessage (.obj
        [("error", .str "org.varlink.service.MethodNotImplemented"),
         ("parameters", .obj [("method", .str "Foo")])]) =
      .error (.exc (.methodNotImplemented (.str "Foo"))) ∧
    nextVarlinkMessage (.obj
        [("error", .str "org.varlink.service.InvalidParameter"),
         ("parameters", .obj [("parameter", .str "x")])]) =
      .error (.exc (.invalidParameter (.str "x"))) ∧
    nextVarlinkMessage (.obj
        [("error", .str "org.varlink.service.MethodNotFound"),
         ("parameters", .obj [("method", .str "Foo")])]) =
      .error (.exc (.generic (.obj
        [("error", .str "org.varlink.service.MethodNotFound"),
         ("parameters", .obj [("method", .str "Foo")])]))) ∧
    nextVarlinkMessage (.obj
        [("error", .str "org.example.ActionFailed"),
         ("parameters", .obj [("reason", .str "r")])]) =
      .error (.exc (.generic (.obj
        [("error", .str "org.example.ActionFailed"),
         ("parameters", .obj [("reason", .str "r")])]))) ∧
    (VarlinkExc.generic (.obj
        [("error", .str "org.example.ActionFailed"),
         ("parameters", .obj [("reason", .str "r")])])).asDict =
      .obj [("error", .str "org.example.ActionFailed"),
            ("parameters", .obj [("reason", .str "r")])] :=
  ⟨rfl, rfl, rfl, rfl, rfl, rfl⟩

/-- C2: of the nine inputs listed by the claim, eight behave exactly as
stated — `a.b`, `org.varlink.service` and `com.example.0example` parse,
and `.a.b.c`, `a..b`, `com.-example.x`, `ab` and `1.b.c` raise
`SyntaxError` — but `xn--lgbbat1ad8j.example.algeria` is REJECTED by the
committed pattern `[a-z]+(\.[a-z0-9][a-z0-9-]*)+`, whose first label
admits only lowercase letters, although the repository's own test suite
(varlink/tests/test_scanner.py line 119) asserts that it parses. -/
theorem varlink_C2_interface_names :
    (parseInterface 30 "interface a.b\nmethod F()->()".data).map Prod.fst =
      some "a.b" ∧
    (parseInterface 30 "interface org.varlink.service\nmethod F()->()".data).map
      Prod.fst = some "org.varlink.service" ∧
    (parseInterface 30 "interface com.example.0example\nmethod F()->()".data).map
      Prod.fst = some "com.example.0example" ∧
    parseInterface 30 "interface .a.b.c\nmethod F()->()".data = none ∧
    parseInterface 30 "interface a..b\nmethod F()->()".data = none ∧
    parseInterface 30 "interface com.-example.x\nmethod F()->()".data = none ∧
    parseInterface 30 "interface ab\nmethod F()->()".data = none ∧
    parseInterface 30 "interface 1.b.c\nmethod F()->()".data = none ∧
    parseInterface 30
      "interface xn--lgbbat1ad8j.example.algeria\nmethod F()->()".data =
      none :=
  ⟨rfl, rfl, rfl, rfl, rfl, rfl, rfl, rfl, rfl⟩

/-- C3: the dispatcher of server.py has no generic exception handler —
its `_handle` catches only `VarlinkError` — so a handler raising an
unexpected non-Varlink exception makes the exception escape the `handle`
generator with no frame emitted at all: no
`(obj [(error, InternalError)])` frame is produced and socketserver tears
the connection down.  (The parallel dispatcher in `varlink/__init__.py`
lines 663-665 still catches `Exception` and yields exactly that frame,
which is the behaviour the claim and the spec describe.) -/
theorem varlink_C3_internal_error_missing :
    serviceHandle
      (exService ⟨false, false, false, .raised (.other "RuntimeError")⟩)
      5 (.obj [("method", .str "org.example.t.M")]) =
    ⟨[], some (.other "RuntimeError")⟩ := rfl

/-- C5 (amended): the dispatcher discards a generator handler's yields on
a oneway request only when it passed `_oneway=True` to the handler, which
requires the handler to declare a `_oneway` parameter; in that case no
reply frame is emitted.  A single-value return under oneway produces no
reply frame unconditionally. -/
theorem varlink_C5_oneway_discard (members : List (String × Member))
    (fuel : Nat) (outT : VType) (os : List (List (String × Value)))
    (dm du : Bool) (v : Value) (fuel1 : Nat) :
    driveGen members fuel outT true (os.map GenItem.val) = ([], none) ∧
    serviceHandle (exService ⟨dm, true, du, .gen (os.map GenItem.val)⟩)
      (fuel1 + 1) exOnewayRequest = ⟨[], none⟩ ∧
    serviceHandle (exService ⟨dm, false, du, .single v⟩) (fuel1 + 1)
      exOnewayRequest = ⟨[], none⟩ := by
  have hdrive : ∀ os1 : List (List (String × Value)),
      driveGen members fuel outT true (os1.map GenItem.val) = ([], none) := by
    intro os1
    induction os1 with
    | nil => rfl
    | cons o os1 ih => simpa [driveGen] using ih
  have hdrive2 : ∀ os1 : List (List (String × Value)),
      driveGen exIface.members (fuel1 + 1) (.struct [("x", .int)]) true
        (os1.map GenItem.val) = ([], none) := by
    intro os1
    induction os1 with
    | nil => rfl
    | cons o os1 ih => simpa [driveGen] using ih
  refine ⟨hdrive os, ?_, rfl⟩
  calc serviceHandle (exService ⟨dm, true, du, .gen (os.map GenItem.val)⟩)
        (fuel1 + 1) exOnewayRequest
      = ⟨(driveGen exIface.members (fuel1 + 1) (.struct [("x", .int)]) true
            (os.map GenItem.val)).1,
         (driveGen exIface.members (fuel1 + 1) (.struct [("x", .int)]) true
            (os.map GenItem.val)).2⟩ := rfl
    _ = ⟨[], none⟩ := by rw [hdrive2 os]

/-- Counterexample to C5 as stated: a oneway request whose generator
handler does not declare `_oneway` has its yield encoded and emitted as a
reply frame — the dispatcher does not discard it. -/
theorem varlink_C5_counterexample :
    serviceHandle
      (exService ⟨false, false, false, .gen [.val [("x", .int 1)]]⟩)
      5 exOnewayRequest =
    ⟨[.obj [("parameters", .obj [("x", .int 1)])]], none⟩ := rfl

/-- C6 (amended): the parameter filter accepts a value against an `_Enum`
type node iff the value is a string, returning it unchanged; the enum's
tag set is never consulted.  Every non-string value is rejected with
`InvalidParameter` carrying the dotted path. -/
theorem varlink_C6_enum_filter (members : List (String × Member))
    (fuel : Nat) (parentName : String) (tags : List String) (v : Value)
    (kwargs : List (String × Value)) :
    filterParams members (fuel + 1) parentName (.ty (.enum tags)) (.val v)
        kwargs =
      match v with
      | .str s => .ok (.str s)
      | _ => .error (.varlink (.invalidParameter (.str parentName))) := by
  cases v <;> rfl

/-- Counterexample to C6 as stated: the string `purple` is outside the
tag set of the enum `(red, green)` yet the filter accepts it unchanged. -/
theorem varlink_C6_counterexample :
    filterParams [] 1 "server.call.color" (.ty (.enum ["red", "green"]))
        (.val (.str "purple")) [] = .ok (.str "purple") ∧
    "purple" ∉ (["red", "green"] : List String) :=
  ⟨rfl, by decide⟩

/-- C7: with the `_in_use` flag set, both `_call` and `_call_more` raise
`ConnectionError` immediately and transmit no request frame. -/
theorem varlink_C7_at_most_one_in_flight (iface : InterfaceModel)
    (fuel : Nat) (methodName : String) (args : PyArgs)
    (kwargs : List (String × Value)) (oneway : Bool) (replies : List Value) :
    clientCall iface fuel true methodName args kwargs oneway replies =
      ⟨[], true, false, .error (.connectionError
        "Tried to call a varlink method, while other call still in progress")⟩ ∧
    clientCallMore iface fuel true methodName args kwargs replies =
      ⟨[], [], some (.connectionError
        "Tried to call a varlink method, while other call still in progress"),
        replies⟩ :=
  ⟨rfl, rfl⟩

/-- C9: for a streaming (`_more`) call whose reply stream carries k frames
with a truthy `continues` entry followed by one frame whose `continues`
is false or absent, the `_call_more` reply loop yields exactly k+1 values,
terminates normally, and reads nothing past the terminating frame.  The
hypotheses state that each frame is a non-error reply whose parameters
pass the out-type filter. -/
theorem varlink_C9_streaming_termination (members : List (String × Member))
    (fuel : Nat) (outT : VType) (frames : List Value) (last : Value)
    (rest : List Value)
    (hframes : ∀ f ∈ frames, ∃ p v, nextVarlinkMessage f = .ok (p, true) ∧
      (if p.truthy then
        filterParams members fuel "client.reply" (.ty outT) (.val p) []
       else .ok p) = .ok v)
    (hlast : ∃ p v, nextVarlinkMessage last = .ok (p, false) ∧
      (if p.truthy then
        filterParams members fuel "client.reply" (.ty outT) (.val p) []
       else .ok p) = .ok v) :
    ∃ ys, callMoreLoop members fuel outT (frames ++ last :: rest) =
        (ys, none, rest) ∧ ys.length = frames.length + 1 := by
  induction frames with
  | nil =>
      obtain ⟨p, v, h1, h2⟩ := hlast
      refine ⟨[v], ?_, rfl⟩
      simp [callMoreLoop, h1, h2]
  | cons f fs ih =>
      obtain ⟨p, v, h1, h2⟩ := hframes f (List.mem_cons_self f fs)
      obtain ⟨ys, hy, hlen⟩ :=
        ih (fun g hg => hframes g (List.mem_cons_of_mem f hg))
      refine ⟨v :: ys, ?_, by simp [hlen]⟩
      simp [callMoreLoop, h1, h2, hy]

/-- Witness for C9: two `continues: true` frames followed by a frame
without `continues` yield three values. -/
theorem varlink_C9_witness :
    ∃ ys, callMoreLoop [] 1 .object
        [.obj [("parameters", .obj [("a", .int 1)]), ("continues", .bool true)],
         .obj [("parameters", .obj [("b", .int 2)]), ("continues", .bool true)],
         .obj [("parameters", .obj [("c", .int 3)])]] = (ys, none, []) ∧
      ys.length = 2 + 1 := by
  have h := varlink_C9_streaming_termination [] 1 .object
    [.obj [("parameters", .obj [("a", .int 1)]), ("continues", .bool true)],
     .obj [("parameters", .obj [("b", .int 2)]), ("continues", .bool true)]]
    (.obj [("parameters", .obj [("c", .int 3)])]) []
    (by
      intro f hf
      simp only [List.mem_cons, List.not_mem_nil, or_false] at hf
      rcases hf with rfl | rfl
      · exact ⟨_, _, rfl, rfl⟩
      · exact ⟨_, _, rfl, rfl⟩)
    ⟨_, _, rfl, rfl⟩
  simpa using h

theorem dictSet_mem (k : String) (v : Value) :
    ∀ (d : List (String × Value)), ∀ kv ∈ dictSet d k v,
      kv.1 = k ∨ kv ∈ d := by
  intro d
  induction d with
  | nil =>
      intro kv h
      simp only [dictSet, List.mem_singleton] at h
      subst h
      exact Or.inl rfl
  | cons e d ih =>
      obtain ⟨k0, v0⟩ := e
      intro kv h
      simp only [dictSet] at h
      by_cases hk : k0 = k
      · rw [if_pos hk] at h
        rcases List.mem_cons.mp h with rfl | hm
        · exact Or.inl hk
        · exact Or.inr (List.mem_cons_of_mem _ hm)
      · rw [if_neg hk] at h
        rcases List.mem_cons.mp h with rfl | hm
        · exact Or.inr (List.mem_cons_self _ _)
        · rcases ih kv hm with h1 | h1
          · exact Or.inl h1
          · exact Or.inr (List.mem_cons_of_mem _ h1)

theorem out1_mem (out : List (String × Value)) (name : String) (ret : Value) :
    ∀ kv ∈ (match ret with
            | Value.null => out
            | _ => dictSet out name ret), kv.1 = name ∨ kv ∈ out := by
  cases ret with
  | null => exact fun kv h => Or.inr h
  | bool b => exact dictSet_mem name _ out
  | int n => exact dictSet_mem name _ out
  | float q => exact dictSet_mem name _ out
  | str s => exact dictSet_mem name _ out
  | arr xs => exact dictSet_mem name _ out
  | obj kvs => exact dictSet_mem name _ out
  | setv xs => exact dictSet_mem name _ out

/-- The struct field loop only ever adds declared field names to its
output dictionary. -/
theorem filterFieldsGo_keys (flt : String → VType → Value → Except PyExc Value)
    (parentName : String) (names : List String) :
    ∀ (fields : List (String × VType)) (argsT : Option (List Value))
      (vstruct : Option Value) (kwargs : List (String × Value))
      (out res : List (String × Value)),
      filterFieldsGo flt parentName fields argsT vstruct kwargs out = .ok res →
      (∀ f ∈ fields, f.1 ∈ names) →
      (∀ kv ∈ out, kv.1 ∈ names) →
      ∀ kv ∈ res, kv.1 ∈ names := by
  intro fields
  induction fields with
  | nil =>
      intro argsT vstruct kwargs out res hgo _ hout
      simp only [filterFieldsGo, Except.ok.injEq] at hgo
      subst hgo
      exact hout
  | cons fpair fields ih =>
      obtain ⟨name, ft⟩ := fpair
      intro argsT vstruct kwargs out res hgo hfields hout
      have hname : name ∈ names := hfields (name, ft) (List.mem_cons_self _ _)
      have hfs : ∀ f ∈ fields, f.1 ∈ names :=
        fun f hf => hfields f (List.mem_cons_of_mem _ hf)
      have hstep : ∀ (ret : Value) (kv : String × Value),
          kv ∈ ((match ret with
                 | Value.null => out
                 | _ => dictSet out name ret) : List (String × Value)) →
          kv.1 ∈ names := by
        intro ret kv hkv
        rcases out1_mem out name ret kv hkv with h | h
        · exact h ▸ hname
        · exact hout kv h
      simp only [filterFieldsGo] at hgo
      split at hgo
      · -- argsT = some (v :: restT)
        split at hgo
        · exact absurd hgo (by simp)
        · exact ih _ _ _ _ res hgo hfs (fun kv hkv => hstep _ kv hkv)
      · -- argsT = some []
        split at hgo
        · split at hgo
          · exact absurd hgo (by simp)
          · exact ih _ _ _ _ res hgo hfs (fun kv hkv => hstep _ kv hkv)
        · exact ih _ _ _ _ res hgo hfs hout
      · -- argsT = none
        split at hgo
        · -- vstruct = some vs
          split at hgo
          · -- vs.truthy
            split at hgo
            · -- vs = .obj kvs
              split at hgo
              · exact ih _ _ _ _ res hgo hfs hout
              · split at hgo
                · exact absurd hgo (by simp)
                · exact ih _ _ _ _ res hgo hfs (fun kv hkv => hstep _ kv hkv)
            · exact ih _ _ _ _ res hgo hfs hout
          · exact ih _ _ _ _ res hgo hfs hout
        · exact ih _ _ _ _ res hgo hfs hout

/-- The struct field loop consults its `varlink_struct` dictionary only at
the declared field names: two dictionaries agreeing there produce the
same outcome. -/
theorem filterFieldsGo_lookup_ext
    (flt : String → VType → Value → Except PyExc Value) (parentName : String) :
    ∀ (fields : List (String × VType)) (d dR : List (String × Value))
      (kwargs out : List (String × Value)),
      (∀ f ∈ fields, dictGet d f.1 = dictGet dR f.1) →
      filterFieldsGo flt parentName fields none (some (.obj d)) kwargs out =
      filterFieldsGo flt parentName fields none (some (.obj dR)) kwargs out := by
  intro fields
  induction fields with
  | nil => intro d dR kwargs out _; rfl
  | cons fpair fields ih =>
      obtain ⟨name, ft⟩ := fpair
      intro d dR kwargs out hlk
      have hhead : dictGet d name = dictGet dR name :=
        hlk (name, ft) (List.mem_cons_self _ _)
      have htail : ∀ f ∈ fields, dictGet d f.1 = dictGet dR f.1 :=
        fun f hf => hlk f (List.mem_cons_of_mem _ hf)
      have hrec := ih d dR kwargs out htail
      simp only [filterFieldsGo]
      by_cases hd : (Value.obj d).truthy = true
      · rw [if_pos hd]
        by_cases hdR : (Value.obj dR).truthy = true
        · rw [if_pos hdR, hhead]
          have hbr : ∀ (r : Except PyExc Value),
              (match r with
               | Except.error e => Except.error e
               | Except.ok ret =>
                   filterFieldsGo flt parentName fields none
                     (some (Value.obj d)) kwargs
                     (match ret with
                      | Value.null => out
                      | _ => dictSet out name ret)) =
              (match r with
               | Except.error e => Except.error e
               | Except.ok ret =>
                   filterFieldsGo flt parentName fields none
                     (some (Value.obj dR)) kwargs
                     (match ret with
                      | Value.null => out
                      | _ => dictSet out name ret)) := by
            intro r
            cases r with
            | error e => rfl
            | ok ret => exact ih d dR kwargs _ htail
          cases hv : dictGet dR name with
          | none => exact hrec
          | some v => exact hbr (flt (parentName ++ "." ++ name) ft v)
        · rw [if_neg hdR]
          have hdRe : dR = [] := by
            cases dR with
            | nil => rfl
            | cons x xs => exact (hdR rfl).elim
          subst hdRe
          have hnone : dictGet d name = none := by rw [hhead]; rfl
          rw [hnone]
          exact hrec
      · rw [if_neg hd]
        by_cases hdR : (Value.obj dR).truthy = true
        · rw [if_pos hdR]
          have hde : d = [] := by
            cases d with
            | nil => rfl
            | cons x xs => exact (hd rfl).elim
          subst hde
          have hnone : dictGet dR name = none := by rw [← hhead]; rfl
          rw [hnone]
          exact hrec
        · rw [if_neg hdR]
          exact hrec

/-- Restricting a dictionary to a key set does not change lookups of keys
inside the set. -/
theorem dictGet_filter_declared (names : List String) :
    ∀ (d : List (String × Value)) (name : String), name ∈ names →
      dictGet (d.filter (fun kv => decide (kv.1 ∈ names))) name =
      dictGet d name := by
  intro d
  induction d with
  | nil => intro name _; rfl
  | cons e d ih =>
      obtain ⟨k, v⟩ := e
      intro name hname
      by_cases hk : k ∈ names
      · rw [List.filter_cons, decide_eq_true hk, if_pos rfl]
        simp only [dictGet, List.lookup]
        cases hbeq : name == k with
        | true => rfl
        | false => exact ih name hname
      · have hne : (name == k) = false := by
          by_cases h : name = k
          · exact absurd (h ▸ hname) hk
          · simpa using h
        rw [List.filter_cons, decide_eq_false hk, if_neg (by simp)]
        simp only [dictGet, List.lookup, hne]
        exact ih name hname

/-- C10: three facts about unknown fields.  (1) A value filtered against a
Struct node produces an object whose keys are all declared field names.
(2) Input fields not declared in the struct are invisible to the filter:
restricting the input dictionary to the declared names gives the same
outcome, so unknown fields are silently dropped and never cause
`InvalidParameter` inside the filter — the client filters server replies
with this same function, so unknown reply fields are discarded rather than
rejected.  (3) The unknown-field rejection lives in the dispatcher, on the
top-level keys of a request's parameters, before the handler is invoked: a
request with an undeclared top-level key yields one `InvalidParameter`
error frame whatever the registered handler would have done. -/
theorem varlink_C10_struct_unknown_fields
    (members : List (String × Member)) (fuel : Nat) (parentName : String)
    (fields : List (String × VType)) (d : List (String × Value))
    (kwargs : List (String × Value)) (r : Value) (hm : HandlerMethod)
    (fuel2 : Nat)
    (hr : filterParams members (fuel + 1) parentName (.ty (.struct fields))
        (.val (.obj d)) kwargs = .ok r) :
    objKeysWithin r (fields.map Prod.fst) = true ∧
    filterParams members (fuel + 1) parentName (.ty (.struct fields))
        (.val (.obj d)) kwargs =
      filterParams members (fuel + 1) parentName (.ty (.struct fields))
        (.val (.obj (d.filter (fun kv =>
          decide (kv.1 ∈ fields.map Prod.fst))))) kwargs ∧
    serviceHandle (exService2 hm) fuel2 exUnknownFieldRequest =
      ⟨[(VarlinkExc.invalidParameter (.str "zzz")).asDict], none⟩ := by
  refine ⟨?_, ?_, rfl⟩
  · simp only [filterParams] at hr
    cases hgo : filterFieldsGo
        (fun p ft v1 => filterParams members fuel p (.ty ft) (.val v1) [])
        parentName fields none (some (.obj d)) kwargs [] with
    | error e => rw [hgo] at hr; simp at hr
    | ok out =>
        rw [hgo] at hr
        simp only [Except.ok.injEq] at hr
        subst hr
        simp only [objKeysWithin, List.all_eq_true]
        intro kv hkv
        refine decide_eq_true ?_
        refine filterFieldsGo_keys _ parentName (fields.map Prod.fst) fields
          none (some (.obj d)) kwargs [] out hgo ?_ ?_ kv hkv
        · exact fun f hf => List.mem_map_of_mem Prod.fst hf
        · intro kv0 h0
          simp at h0
  · have hlk : ∀ f ∈ fields, dictGet d f.1 =
        dictGet (d.filter (fun kv =>
          decide (kv.1 ∈ fields.map Prod.fst))) f.1 :=
      fun f hf => (dictGet_filter_declared (fields.map Prod.fst) d f.1
        (List.mem_map_of_mem Prod.fst hf)).symm
    simp only [filterParams]
    rw [filterFieldsGo_lookup_ext
      (fun p ft v1 => filterParams members fuel p (.ty ft) (.val v1) [])
      parentName fields d
      (d.filter (fun kv => decide (kv.1 ∈ fields.map Prod.fst)))
      kwargs [] hlk]

/-- Witness for C10, at a two-field input with the unknown key `zzz`. -/
theorem varlink_C10_witness :
    objKeysWithin (.obj [("a", .int 2)])
        ([("a", VType.int)].map Prod.fst) = true ∧
    filterParams [] (1 + 1) "p" (.ty (.struct [("a", .int)]))
        (.val (.obj [("zzz", .int 9), ("a", .int 2)])) [] =
      filterParams [] (1 + 1) "p" (.ty (.struct [("a", .int)]))
        (.val (.obj ([("zzz", Value.int 9), ("a", Value.int 2)].filter
          (fun kv => decide (kv.1 ∈ [("a", VType.int)].map Prod.fst))))) [] ∧
    serviceHandle (exService2 ⟨false, false, false, .single .null⟩) 3
        exUnknownFieldRequest =
      ⟨[(VarlinkExc.invalidParameter (.str "zzz")).asDict], none⟩ :=
  varlink_C10_struct_unknown_fields [] 1 "p" [("a", .int)]
    [("zzz", .int 9), ("a", .int 2)] [] (.obj [("a", .int 2)])
    ⟨false, false, false, .single .null⟩ 3 rfl

end Varlink
